import Mathlib

/-!
Verification development for a small residual-network training repository
(`resnet.py` and `train.py`).

The model definitions are a shallow embedding of the Python source at the
level of layer configurations and tensor shapes: a `Conv2d` is its
hyperparameter record, a tensor is its shape `(N, C, H, W)`, and every layer
application is the (partial) shape transformation the underlying library
performs, returning `none` exactly where the library would raise a shape
error.  The training driver is embedded as explicit state passing over a
model record, parameterised by the numeric primitives (forward pass, loss)
that the external library provides.
-/

set_option autoImplicit false

/-- Configuration record of a `nn.Conv2d(in_channels, out_channels,
kernel_size, stride, padding)` layer, square kernels only (all the source
uses). -/
structure Conv2d where
  in_channels : Nat
  out_channels : Nat
  kernel_size : Nat
  stride : Nat
  padding : Nat
  deriving DecidableEq, Repr

/-- A 4-d tensor shape `(N, C, H, W)` as produced and consumed by the
network. -/
structure Shape where
  n : Nat
  c : Nat
  h : Nat
  w : Nat
  deriving DecidableEq, Repr

/-- Output size of a convolution / pooling window along one spatial
dimension: `floor((d + 2*padding - kernel) / stride) + 1`, undefined (a
runtime error in the library) when the padded input is smaller than the
kernel. -/
def convOutDim (kernel stride padding d : Nat) : Option Nat :=
  if kernel ≤ d + 2 * padding then some ((d + 2 * padding - kernel) / stride + 1)
  else none

/-- Shape semantics of applying a `Conv2d` to an input: the channel count
must match `in_channels`, and both spatial dimensions shrink by the window
arithmetic.  `none` models the shape error the library raises otherwise. -/
def Conv2d.apply (conv : Conv2d) (x : Shape) : Option Shape := do
  if x.c = conv.in_channels then
    let h ← convOutDim conv.kernel_size conv.stride conv.padding x.h
    let w ← convOutDim conv.kernel_size conv.stride conv.padding x.w
    some ⟨x.n, conv.out_channels, h, w⟩
  else
    none

/-- Weight and bias shapes a `Conv2d` registers as learnable parameters:
`weight : (out, in, k, k)` and `bias : (out)`. -/
def Conv2d.paramShapes (conv : Conv2d) : List (List Nat) :=
  [[conv.out_channels, conv.in_channels, conv.kernel_size, conv.kernel_size],
   [conv.out_channels]]

/-- `ResidualBlock` from `resnet.py`: two 3x3 convolutions and a skip
connection; `subsample` selects the stride-2 first convolution.  The
1x1 stride-2 `projection_shortcut` is a child module in every block. -/
structure ResidualBlock where
  num_filters : Nat
  subsample : Bool
  conv1 : Conv2d
  conv2 : Conv2d
  projection_shortcut : Conv2d
  deriving DecidableEq, Repr

/-- `ResidualBlock.__init__(num_filters, subsample)`: the layer
configurations constructed there (`//` is Nat division, as in Python). -/
def ResidualBlock.build (num_filters : Nat) (subsample : Bool) : ResidualBlock :=
  { num_filters := num_filters
    subsample := subsample
    conv1 :=
      if subsample then ⟨num_filters / 2, num_filters, 3, 2, 1⟩
      else ⟨num_filters, num_filters, 3, 1, 1⟩
    conv2 := ⟨num_filters, num_filters, 3, 1, 1⟩
    projection_shortcut := ⟨num_filters / 2, num_filters, 1, 2, 0⟩ }

/-- Learnable parameter shapes of a block, in registration order
`conv1, conv2, projection_shortcut` (the order `nn.Module` records the
child modules); this is also the content of the block's checkpoint entry
and of the slice of `model.parameters()` handed to the optimizer. -/
def ResidualBlock.paramShapes (b : ResidualBlock) : List (List Nat) :=
  b.conv1.paramShapes ++ b.conv2.paramShapes ++ b.projection_shortcut.paramShapes

/-- Shape semantics of `ResidualBlock.forward`: `conv1`, relu, `conv2`;
the shortcut is the projection when subsampling, the input itself
otherwise; the elementwise residual add requires the two shapes to agree
exactly (a shape error otherwise); relu preserves shape. -/
def ResidualBlock.forward (b : ResidualBlock) (x : Shape) : Option Shape := do
  let out ← b.conv1.apply x
  let out ← b.conv2.apply out
  let shortcut ← if b.subsample then b.projection_shortcut.apply x else some x
  if out = shortcut then some out else none

/-- Shape semantics of `nn.AvgPool2d(k)`: kernel `k`, stride `k`, no
padding, channels preserved. -/
def avgPoolApply (k : Nat) (x : Shape) : Option Shape := do
  let h ← convOutDim k k 0 x.h
  let w ← convOutDim k k 0 x.w
  some ⟨x.n, x.c, h, w⟩

/-- Configuration of the final `nn.Linear(in_features, out_features)`. -/
structure Linear where
  in_features : Nat
  out_features : Nat
  deriving DecidableEq, Repr

/-- `ResNet` from `resnet.py`: stem convolution, three stacks of residual
blocks, 8x8 average pooling, and the linear head. -/
structure ResNet where
  conv1 : Conv2d
  stack1 : List ResidualBlock
  stack2 : List ResidualBlock
  stack3 : List ResidualBlock
  pool_size : Nat
  fully_connected : Linear
  deriving DecidableEq, Repr

/-- The structure `ResNet.__init__(n)` assembles.  `n` is an `Int` so that
Python's behaviour on non-positive arguments is kept: `range(n)` is empty
for `n ≤ 0` (`Int.toNat` truncates at zero exactly like `range`). -/
def ResNet.build (n : Int) : ResNet :=
  { conv1 := ⟨3, 16, 3, 1, 1⟩
    stack1 := List.replicate n.toNat (ResidualBlock.build 16 false)
    stack2 := ResidualBlock.build 32 true ::
      List.replicate (n - 1).toNat (ResidualBlock.build 32 false)
    stack3 := ResidualBlock.build 64 true ::
      List.replicate (n - 1).toNat (ResidualBlock.build 64 false)
    pool_size := 8
    fully_connected := ⟨64, 10⟩ }

/-- `ResNet.__init__(n)` with the library's constructor-time validation
made explicit: each `nn.Conv2d` rejects non-positive channel, kernel or
stride arguments.  The Python constructor contains no further check of any
kind (in particular none on `n`), so these are the only error paths. -/
def conv2dInit (in_channels out_channels kernel_size stride padding : Nat) :
    Except String Conv2d :=
  if in_channels = 0 then .error "in_channels must be positive"
  else if out_channels = 0 then .error "out_channels must be positive"
  else if kernel_size = 0 then .error "kernel_size must be positive"
  else if stride = 0 then .error "stride must be positive"
  else .ok ⟨in_channels, out_channels, kernel_size, stride, padding⟩

/-- `ResidualBlock.__init__` with constructor-time validation threaded
through. -/
def residualBlockInit (num_filters : Nat) (subsample : Bool) :
    Except String ResidualBlock := do
  let conv1 ←
    if subsample then conv2dInit (num_filters / 2) num_filters 3 2 1
    else conv2dInit num_filters num_filters 3 1 1
  let conv2 ← conv2dInit num_filters num_filters 3 1 1
  let projection_shortcut ← conv2dInit (num_filters / 2) num_filters 1 2 0
  .ok ⟨num_filters, subsample, conv1, conv2, projection_shortcut⟩

/-- `ResNet.__init__(n)` with validation threaded through: the stacks are
built exactly as in the source (`n` blocks, then `1 + (n-1)` blocks twice),
and no step examines `n` itself. -/
def ResNet.init (n : Int) : Except String ResNet := do
  let conv1 ← conv2dInit 3 16 3 1 1
  let stack1 ← (List.replicate n.toNat (residualBlockInit 16 false)).mapM id
  let first2 ← residualBlockInit 32 true
  let rest2 ← (List.replicate (n - 1).toNat (residualBlockInit 32 false)).mapM id
  let first3 ← residualBlockInit 64 true
  let rest3 ← (List.replicate (n - 1).toNat (residualBlockInit 64 false)).mapM id
  .ok { conv1 := conv1
        stack1 := stack1
        stack2 := first2 :: rest2
        stack3 := first3 :: rest3
        pool_size := 8
        fully_connected := ⟨64, 10⟩ }

/-- Total number of residual blocks in the assembled network. -/
def ResNet.numBlocks (r : ResNet) : Nat :=
  r.stack1.length + r.stack2.length + r.stack3.length

/-- Shape semantics of a `nn.Sequential` stack of residual blocks. -/
def stackForward (blocks : List ResidualBlock) (x : Shape) : Option Shape :=
  blocks.foldlM (fun s b => b.forward s) x

/-- Shape semantics of `ResNet.forward`: stem convolution (relu preserves
shape), the three stacks, 8x8 average pooling, the `view(-1, 64)` reshape
(defined only when 64 divides the element count; the row count is whatever
the division yields, not necessarily the batch size), and the linear head
(which requires exactly 64 input features). -/
def ResNet.forward (r : ResNet) (x : Shape) : Option (Nat × Nat) := do
  let out ← r.conv1.apply x
  let out ← stackForward r.stack1 out
  let out ← stackForward r.stack2 out
  let out ← stackForward r.stack3 out
  let out ← avgPoolApply r.pool_size out
  let elems := out.n * out.c * out.h * out.w
  if elems % 64 = 0 then
    let rows := elems / 64
    if r.fully_connected.in_features = 64 then
      some (rows, r.fully_connected.out_features)
    else
      none
  else
    none

/-! ### Training driver (`train.py`) -/

/-- One element of a `torchvision.transforms.Compose` pipeline, as used in
`make`. -/
inductive Transform where
  | toTensor : Transform
  | normalize (mean std : Rat × Rat × Rat) : Transform
  | randomCrop (size padding : Nat) : Transform
  deriving DecidableEq, Repr

/-- The transform pipeline `make` builds for the train split:
`ToTensor`, `Normalize((0.5,0.5,0.5),(0.5,0.5,0.5))`, `RandomCrop(32, padding=4)`. -/
def train_transform : List Transform :=
  [Transform.toTensor,
   Transform.normalize (1/2, 1/2, 1/2) (1/2, 1/2, 1/2),
   Transform.randomCrop 32 4]

/-- The transform pipeline `make` passes for the test split: bare
`transforms.ToTensor()`. -/
def test_transform : List Transform :=
  [Transform.toTensor]

/-- Whether a transform is a normalization step. -/
def Transform.isNormalize : Transform → Bool
  | Transform.normalize _ _ => true
  | _ => false

/-- Whether a transform is a random-crop augmentation step. -/
def Transform.isRandomCrop : Transform → Bool
  | Transform.randomCrop _ _ => true
  | _ => false

/-- The milestone list of `MultiStepLR(optimizer, milestones=[82, 123], gamma=0.1)`. -/
def milestones : List Nat := [82, 123]

/-- The decay factor of the scheduler. -/
def gamma : Rat := 1 / 10

/-- The learning rate in force during epoch `e` of the training loop,
under the source's stepping discipline: the scheduler starts at the base
rate and `scheduler.step()` runs exactly once at the end of every epoch,
multiplying the rate by `gamma` exactly when the epoch counter reaches a
milestone. -/
def lrAt (base : Rat) : Nat → Rat
  | 0 => base
  | e + 1 => if e + 1 ∈ milestones then gamma * lrAt base e else lrAt base e

/-- Hyperparameter record handed to `make` / `train`. -/
structure Config where
  n : Nat
  batch_size : Nat
  learning_rate : Rat
  epochs : Nat
  weight_decay : Rat
  momentum : Rat
  deriving DecidableEq, Repr

/-- The mutable state of an `nn.Module`: its learnable parameters
(flattened to a list of rationals) and the train/eval mode flag toggled by
`model.train()` / `model.eval()`. -/
structure Model where
  params : List Rat
  training : Bool
  deriving DecidableEq, Repr

/-- Per-epoch record sent to the tracker by `train`. -/
structure MetricsRecord where
  epoch : Nat
  train_error : Rat
  train_loss : Rat
  test_error : Rat
  test_loss : Rat
  deriving DecidableEq, Repr

/-- `evaluate(model, loader, loss_func)` from `train.py`, embedded with
explicit state passing.  `forward` is the model's forward pass — a pure
function of the parameters and the batch, which is exactly what
`torch.inference_mode()` enforces in the source — and `lossFn` the batch
loss.  The only state change in the source is `model.eval()`, which clears
the training flag; the parameters are read, never written.  Returns the
model state after the call together with `(loss, accuracy)`. -/
def evaluate {α : Type} (forward : List Rat → α → List Nat)
    (lossFn : List Rat → α → List Nat → Rat)
    (model : Model) (loader : List (α × List Nat)) :
    Model × Rat × Rat :=
  let model := { model with training := false }
  let step := fun (acc : Rat × Nat) (batch : α × List Nat) =>
    let preds := forward model.params batch.1
    (acc.1 + lossFn model.params batch.1 batch.2 * batch.2.length,
     acc.2 + (preds.zip batch.2).countP (fun p => p.1 = p.2))
  let res := loader.foldl step (0, 0)
  let total : Nat := (loader.map (fun b => b.2.length)).sum
  (model, res.1 / total, (res.2 : Rat) / total)

/-- Output of one full run: the parameter values right after seeded
initialization, and the per-epoch metrics sequence. -/
structure RunOutput where
  initParams : List Rat
  metrics : List MetricsRecord
  deriving DecidableEq, Repr

/-- The body of one epoch of `train` followed by the per-epoch bookkeeping:
every train batch in order (forward, loss, backward, one optimizer step at
the scheduler's current rate), then a metrics record from `evaluate` on
the train and test splits, then `scheduler.step()` (realised by `lrAt` at
the next epoch index). -/
def runEpoch {α : Type} (sgdStep : Rat → List Rat → α × List Nat → List Rat)
    (forward : List Rat → α → List Nat)
    (lossFn : List Rat → α → List Nat → Rat)
    (baseLR : Rat) (trainData testData : List (α × List Nat))
    (state : Model × List MetricsRecord) (epoch : Nat) :
    Model × List MetricsRecord :=
  let model := { state.1 with training := true }
  let params := trainData.foldl (sgdStep (lrAt baseLR epoch)) model.params
  let model := { model with params := params }
  let trainEval := evaluate forward lossFn model trainData
  let testEval := evaluate forward lossFn trainEval.1 testData
  (testEval.1,
   state.2 ++ [{ epoch := epoch
                 train_error := 1 - trainEval.2.2
                 train_loss := trainEval.2.1
                 test_error := 1 - testEval.2.2
                 test_loss := testEval.2.1 }])

/-- A full training run (`make` followed by `train`), parameterised by the
deterministic numeric primitives the external library supplies: `initFn`
derives the initial parameters from the seed and the configuration
(`torch.manual_seed(seed)` runs before `make`), `sgdStep` is one SGD
parameter update at a given learning rate, `forward`/`lossFn` the forward
pass and the loss.  Every source of randomness is seeded, so each primitive
is a function of its arguments only. -/
def trainRun {α : Type} (initFn : Nat → Config → List Rat)
    (sgdStep : Rat → List Rat → α × List Nat → List Rat)
    (forward : List Rat → α → List Nat)
    (lossFn : List Rat → α → List Nat → Rat)
    (cfg : Config) (seed : Nat)
    (trainData testData : List (α × List Nat)) : RunOutput :=
  let params0 := initFn seed cfg
  let final := (List.range cfg.epochs).foldl
    (runEpoch sgdStep forward lossFn cfg.learning_rate trainData testData)
    (⟨params0, true⟩, [])
  { initParams := params0, metrics := final.2 }

/-! ### Helper lemmas -/

/-- `mapM id` over a replicated successful constructor succeeds with the
replicated value. -/
theorem mapM_id_replicate_ok {β : Type} (k : Nat) (b : β) :
    (List.replicate k (Except.ok b : Except String β)).mapM id =
      Except.ok (List.replicate k b) := by
  induction k with
  | zero => rfl
  | succ k ih =>
    rw [List.replicate_succ, List.mapM_cons, ih]
    rfl

/-- `ResNet.__init__` never takes an error path: for every integer `n` it
returns the assembled structure. -/
theorem ResNet.init_eq_build (n : Int) : ResNet.init n = Except.ok (ResNet.build n) := by
  have h16 : residualBlockInit 16 false = Except.ok (ResidualBlock.build 16 false) := rfl
  have h32 : residualBlockInit 32 false = Except.ok (ResidualBlock.build 32 false) := rfl
  have h64 : residualBlockInit 64 false = Except.ok (ResidualBlock.build 64 false) := rfl
  simp only [ResNet.init, ResNet.build, h16, h32, h64, mapM_id_replicate_ok]
  rfl

/-! ### Claims -/

/-- Claim C1, counterexample: at depth factor `n = 0 < 1` the constructor
does not reject the configuration — it returns an assembled model (with
two residual blocks) instead of raising a configuration error. -/
theorem resnet_init_zero_succeeds :
    ResNet.init 0 = Except.ok (ResNet.build 0) ∧
    (ResNet.build 0).numBlocks = 2 ∧ ((0 : Int) < 1) :=
  ⟨ResNet.init_eq_build 0, by decide, by decide⟩

/-- Claim C1, amended: `ResNet.__init__` performs no validation of `n`.
For every `n < 1` construction succeeds and yields a degenerate model:
stage 1 is empty and stages 2 and 3 hold one (subsampling) block each, so
the model has exactly 2 residual blocks. -/
theorem resnet_init_no_validation (n : Int) (h : n < 1) :
    ResNet.init n = Except.ok (ResNet.build n) ∧
    (ResNet.build n).stack1.length = 0 ∧
    (ResNet.build n).numBlocks = 2 := by
  refine ⟨ResNet.init_eq_build n, ?_, ?_⟩ <;>
    simp [ResNet.build, ResNet.numBlocks] <;> omega

/-- Witness for C1's amended theorem at `n = -1`. -/
theorem resnet_init_no_validation_witness :
    ((-1 : Int) < 1) ∧
    (ResNet.init (-1) = Except.ok (ResNet.build (-1)) ∧
     (ResNet.build (-1)).stack1.length = 0 ∧
     (ResNet.build (-1)).numBlocks = 2) :=
  ⟨by decide, resnet_init_no_validation (-1) (by decide)⟩

/-- Claim C2: for every depth factor `n ≥ 1` construction succeeds and the
assembled network has exactly `n` residual blocks in each of the three
stages (at 16, 32 and 64 filters respectively), hence `3n` in total, plus
the single stem convolution `Conv2d(3, 16, 3, 1, 1)` and the single linear
head `Linear(64, 10)`. -/
theorem resnet_block_counts (n : Int) (h : 1 ≤ n) :
    ResNet.init n = Except.ok (ResNet.build n) ∧
    (ResNet.build n).stack1.length = n.toNat ∧
    (ResNet.build n).stack2.length = n.toNat ∧
    (ResNet.build n).stack3.length = n.toNat ∧
    (ResNet.build n).numBlocks = 3 * n.toNat ∧
    (∀ b ∈ (ResNet.build n).stack1, b.num_filters = 16) ∧
    (∀ b ∈ (ResNet.build n).stack2, b.num_filters = 32) ∧
    (∀ b ∈ (ResNet.build n).stack3, b.num_filters = 64) ∧
    (ResNet.build n).conv1 = ⟨3, 16, 3, 1, 1⟩ ∧
    (ResNet.build n).fully_connected = ⟨64, 10⟩ := by
  refine ⟨ResNet.init_eq_build n, ?_, ?_, ?_, ?_, ?_, ?_, ?_, rfl, rfl⟩
  · simp [ResNet.build]
  · simp [ResNet.build]; omega
  · simp [ResNet.build]; omega
  · simp [ResNet.build, ResNet.numBlocks]; omega
  · intro b hb
    simp only [ResNet.build, List.mem_replicate] at hb
    rw [hb.2]
    rfl
  · intro b hb
    simp only [ResNet.build, List.mem_cons, List.mem_replicate] at hb
    rcases hb with rfl | hb
    · rfl
    · rw [hb.2]
      rfl
  · intro b hb
    simp only [ResNet.build, List.mem_cons, List.mem_replicate] at hb
    rcases hb with rfl | hb
    · rfl
    · rw [hb.2]
      rfl

/-- Witness for C2 at the source's default depth factor `n = 3`. -/
theorem resnet_block_counts_witness :
    (1 ≤ (3 : Int)) ∧
    (ResNet.init 3 = Except.ok (ResNet.build 3) ∧
     (ResNet.build 3).stack1.length = (3 : Int).toNat ∧
     (ResNet.build 3).stack2.length = (3 : Int).toNat ∧
     (ResNet.build 3).stack3.length = (3 : Int).toNat ∧
     (ResNet.build 3).numBlocks = 3 * (3 : Int).toNat ∧
     (∀ b ∈ (ResNet.build 3).stack1, b.num_filters = 16) ∧
     (∀ b ∈ (ResNet.build 3).stack2, b.num_filters = 32) ∧
     (∀ b ∈ (ResNet.build 3).stack3, b.num_filters = 64) ∧
     (ResNet.build 3).conv1 = ⟨3, 16, 3, 1, 1⟩ ∧
     (ResNet.build 3).fully_connected = ⟨64, 10⟩) :=
  ⟨by decide, resnet_block_counts 3 (by decide)⟩

/-- Claim C5: `evaluate` never mutates the model's parameters — the
parameter list of the returned model state is the one passed in, for every
forward/loss primitive, model state and data split.  The only state change
is the `model.eval()` mode switch, which the second conjunct records. -/
theorem evaluate_preserves_params {α : Type} (forward : List Rat → α → List Nat)
    (lossFn : List Rat → α → List Nat → Rat) (model : Model)
    (loader : List (α × List Nat)) :
    (evaluate forward lossFn model loader).1.params = model.params ∧
    (evaluate forward lossFn model loader).1.training = false :=
  ⟨rfl, rfl⟩

/-- Claim C7: with depth factor `n = 1`, a `(4, 3, 32, 32)` input batch is
accepted without shape error and produces a `(4, 10)` score tensor. -/
theorem resnet_forward_batch4 :
    ResNet.forward (ResNet.build 1) ⟨4, 3, 32, 32⟩ = some (4, 10) := by decide

/-- Claim C8: the train pipeline contains a normalization step and the
random-crop augmentation, but the test pipeline — bare `ToTensor()` —
contains no normalization step at all (and no augmentation), contradicting
the claim that both splits are normalized to a fixed statistic. -/
theorem test_split_not_normalized :
    train_transform.any Transform.isNormalize = true ∧
    train_transform.any Transform.isRandomCrop = true ∧
    test_transform.any Transform.isNormalize = false ∧
    test_transform.any Transform.isRandomCrop = false := by decide

/-! ### Convolution arithmetic lemmas -/

/-- A 3x3 stride-1 pad-1 window preserves a positive spatial dimension. -/
theorem convOutDim_311 (d : Nat) (hd : 0 < d) : convOutDim 3 1 1 d = some d := by
  unfold convOutDim
  rw [if_pos (by omega)]
  congr 1
  omega

/-- A 3x3 stride-2 pad-1 window maps `d` to `(d - 1) / 2 + 1`. -/
theorem convOutDim_321 (d : Nat) (hd : 0 < d) :
    convOutDim 3 2 1 d = some ((d - 1) / 2 + 1) := by
  unfold convOutDim
  rw [if_pos (by omega)]
  congr 1

/-- A 1x1 stride-2 pad-0 window maps `d` to the same `(d - 1) / 2 + 1`,
so the projection shortcut always matches the main path's spatial size. -/
theorem convOutDim_120 (d : Nat) (hd : 0 < d) :
    convOutDim 1 2 0 d = some ((d - 1) / 2 + 1) := by
  unfold convOutDim
  rw [if_pos (by omega)]
  congr 1

/-- Applying a 3x3 stride-1 pad-1 convolution with matching channels. -/
theorem conv_apply_311 (cin cout nb H W : Nat) (hH : 0 < H) (hW : 0 < W) :
    Conv2d.apply ⟨cin, cout, 3, 1, 1⟩ ⟨nb, cin, H, W⟩ = some ⟨nb, cout, H, W⟩ := by
  simp [Conv2d.apply, convOutDim_311 H hH, convOutDim_311 W hW]

/-- Applying a 3x3 stride-2 pad-1 convolution with matching channels. -/
theorem conv_apply_321 (cin cout nb H W : Nat) (hH : 0 < H) (hW : 0 < W) :
    Conv2d.apply ⟨cin, cout, 3, 2, 1⟩ ⟨nb, cin, H, W⟩ =
      some ⟨nb, cout, (H - 1) / 2 + 1, (W - 1) / 2 + 1⟩ := by
  simp [Conv2d.apply, convOutDim_321 H hH, convOutDim_321 W hW]

/-- Applying a 1x1 stride-2 pad-0 convolution with matching channels. -/
theorem conv_apply_120 (cin cout nb H W : Nat) (hH : 0 < H) (hW : 0 < W) :
    Conv2d.apply ⟨cin, cout, 1, 2, 0⟩ ⟨nb, cin, H, W⟩ =
      some ⟨nb, cout, (H - 1) / 2 + 1, (W - 1) / 2 + 1⟩ := by
  simp [Conv2d.apply, convOutDim_120 H hH, convOutDim_120 W hW]

/-- A non-subsampling block is shape-preserving on matching inputs. -/
theorem block_forward_plain (w nb H W : Nat) (hH : 0 < H) (hW : 0 < W) :
    (ResidualBlock.build w false).forward ⟨nb, w, H, W⟩ = some ⟨nb, w, H, W⟩ := by
  simp [ResidualBlock.build, ResidualBlock.forward, conv_apply_311 w w nb H W hH hW]

/-- A subsampling block maps `(nb, w/2, H, W)` to
`(nb, w, (H-1)/2 + 1, (W-1)/2 + 1)`: the projected shortcut always agrees
with the main path, so the residual add never fails. -/
theorem block_forward_sub (w nb H W : Nat) (hH : 0 < H) (hW : 0 < W) :
    (ResidualBlock.build w true).forward ⟨nb, w / 2, H, W⟩ =
      some ⟨nb, w, (H - 1) / 2 + 1, (W - 1) / 2 + 1⟩ := by
  have h1 : 0 < (H - 1) / 2 + 1 := by omega
  have h2 : 0 < (W - 1) / 2 + 1 := by omega
  simp [ResidualBlock.build, ResidualBlock.forward,
    conv_apply_321 (w / 2) w nb H W hH hW,
    conv_apply_311 w w nb _ _ h1 h2,
    conv_apply_120 (w / 2) w nb H W hH hW]

/-- Shape behaviour of `nn.AvgPool2d(8)`: defined only on maps at least
8x8, where it divides each spatial dimension by 8 (floor). -/
theorem avgPool8 (nb c H W : Nat) :
    avgPoolApply 8 ⟨nb, c, H, W⟩ =
      if 8 ≤ H ∧ 8 ≤ W then some ⟨nb, c, (H - 8) / 8 + 1, (W - 8) / 8 + 1⟩
      else none := by
  by_cases h1 : 8 ≤ H
  · by_cases h2 : 8 ≤ W
    · rw [if_pos ⟨h1, h2⟩]
      simp [avgPoolApply, convOutDim, h1, h2]
    · rw [if_neg (by tauto)]
      simp [avgPoolApply, convOutDim, h1, h2]
  · rw [if_neg (by tauto)]
    simp [avgPoolApply, convOutDim, h1]

/-- The depth-1 network written out. -/
theorem resnet_build_one :
    ResNet.build 1 =
      { conv1 := ⟨3, 16, 3, 1, 1⟩
        stack1 := [ResidualBlock.build 16 false]
        stack2 := [ResidualBlock.build 32 true]
        stack3 := [ResidualBlock.build 64 true]
        pool_size := 8
        fully_connected := ⟨64, 10⟩ } := rfl

/-- Closed form of the depth-1 forward pass on a `(nb, 3, H, W)` batch:
it succeeds exactly when the final 8x8 pooling window fits, and the
`view(-1, 64)` row count is the batch size times the pooled spatial area —
not necessarily the batch size. -/
theorem resnet1_forward_shape (nb H W : Nat) (hH : 0 < H) (hW : 0 < W) :
    ResNet.forward (ResNet.build 1) ⟨nb, 3, H, W⟩ =
      if 8 ≤ (H - 1) / 2 / 2 + 1 ∧ 8 ≤ (W - 1) / 2 / 2 + 1 then
        some (nb * (((H - 1) / 2 / 2 + 1 - 8) / 8 + 1) *
                (((W - 1) / 2 / 2 + 1 - 8) / 8 + 1), 10)
      else none := by
  have hH2 : 0 < (H - 1) / 2 + 1 := by omega
  have hW2 : 0 < (W - 1) / 2 + 1 := by omega
  have hb2 := block_forward_sub 32 nb H W hH hW
  norm_num at hb2
  have hb3 := block_forward_sub 64 nb ((H - 1) / 2 + 1) ((W - 1) / 2 + 1) hH2 hW2
  norm_num at hb3
  rw [resnet_build_one]
  unfold ResNet.forward
  simp only [stackForward, List.foldlM, Option.bind_eq_bind, Option.pure_def,
    Option.some_bind, Option.bind_some]
  rw [conv_apply_311 3 16 nb H W hH hW]
  simp only [Option.some_bind, Option.bind_some]
  rw [block_forward_plain 16 nb H W hH hW]
  simp only [Option.some_bind, Option.bind_some]
  rw [hb2]
  simp only [Option.some_bind, Option.bind_some]
  rw [hb3]
  simp only [Option.some_bind, Option.bind_some]
  rw [avgPool8]
  by_cases hc : 8 ≤ (H - 1) / 2 / 2 + 1 ∧ 8 ≤ (W - 1) / 2 / 2 + 1
  · rw [if_pos hc, if_pos hc]
    simp only [Option.some_bind]
    have he : nb * 64 * (((H - 1) / 2 / 2 + 1 - 8) / 8 + 1) *
        (((W - 1) / 2 / 2 + 1 - 8) / 8 + 1) =
        64 * (nb * (((H - 1) / 2 / 2 + 1 - 8) / 8 + 1) *
          (((W - 1) / 2 / 2 + 1 - 8) / 8 + 1)) := by ring
    simp only [he, Nat.mul_mod_right, if_pos]
    rw [Nat.mul_div_cancel_left _ (by norm_num : (0 : Nat) < 64)]
  · rw [if_neg hc, if_neg hc]
    simp

/-- Claim C3: a block built with the subsample flag and output width `w`
has a stride-2 first convolution from `w / 2` to `w` channels, a learned
1x1 stride-2 projection `Conv2d(w / 2, w, 1, 2, 0)` as shortcut, and on
any input batch of `w / 2` channels and positive spatial size its output
has exactly `w` channels with spatial dimensions given by the
stride-2/kernel-3/pad-1 floor arithmetic `(d - 1) / 2 + 1` — which is
exactly half the input for even dimensions. -/
theorem block_subsample_spec (w nb H W : Nat) (hH : 0 < H) (hW : 0 < W) :
    (ResidualBlock.build w true).conv1.stride = 2 ∧
    (ResidualBlock.build w true).conv1.in_channels = w / 2 ∧
    (ResidualBlock.build w true).conv1.out_channels = w ∧
    (ResidualBlock.build w true).projection_shortcut = ⟨w / 2, w, 1, 2, 0⟩ ∧
    (ResidualBlock.build w true).forward ⟨nb, w / 2, H, W⟩ =
      some ⟨nb, w, (H - 1) / 2 + 1, (W - 1) / 2 + 1⟩ ∧
    (2 ∣ H → (H - 1) / 2 + 1 = H / 2) ∧
    (2 ∣ W → (W - 1) / 2 + 1 = W / 2) :=
  ⟨rfl, rfl, rfl, rfl, block_forward_sub w nb H W hH hW,
   fun h => by omega, fun h => by omega⟩

/-- Witness for C3 at the stage-2 block (`w = 32`) on a 32x32 map. -/
theorem block_subsample_spec_witness :
    (0 < 32) ∧ (0 < 32) ∧
    ((ResidualBlock.build 32 true).conv1.stride = 2 ∧
     (ResidualBlock.build 32 true).conv1.in_channels = 32 / 2 ∧
     (ResidualBlock.build 32 true).conv1.out_channels = 32 ∧
     (ResidualBlock.build 32 true).projection_shortcut = ⟨32 / 2, 32, 1, 2, 0⟩ ∧
     (ResidualBlock.build 32 true).forward ⟨4, 32 / 2, 32, 32⟩ =
       some ⟨4, 32, (32 - 1) / 2 + 1, (32 - 1) / 2 + 1⟩ ∧
     (2 ∣ 32 → (32 - 1) / 2 + 1 = 32 / 2) ∧
     (2 ∣ 32 → (32 - 1) / 2 + 1 = 32 / 2)) :=
  ⟨by decide, by decide, block_subsample_spec 32 4 32 32 (by decide) (by decide)⟩

/-- Claim C4: under the source's discipline of stepping the
`MultiStepLR([82, 123], 0.1)` scheduler exactly once at the end of every
epoch, the learning rate in force during epoch `e` is the base rate for
`e < 82`, base times 1/10 for `82 ≤ e < 123`, and base times 1/100 for
`e ≥ 123`. -/
theorem lr_schedule_piecewise (base : Rat) (e : Nat) :
    lrAt base e =
      if e < 82 then base
      else if e < 123 then base * (1 / 10)
      else base * (1 / 100) := by
  induction e with
  | zero => simp [lrAt]
  | succ e ih =>
    by_cases h82 : e + 1 = 82
    · rw [lrAt, if_pos (by simp [milestones]; omega), ih]
      have he : e = 81 := by omega
      subst he
      norm_num [gamma]
      ring
    · by_cases h123 : e + 1 = 123
      · rw [lrAt, if_pos (by simp [milestones]; omega), ih]
        have he : e = 122 := by omega
        subst he
        norm_num [gamma]
        ring
      · rw [lrAt, if_neg (by simp [milestones]; omega), ih]
        split_ifs <;> first | rfl | omega

/-- Claim C6: a training run is a function of the configuration, the seed
and the (deterministic) data source alone, so two runs with identical
configuration, seed and data agree exactly on the initialization values
and on the whole per-epoch metrics sequence. -/
theorem trainRun_deterministic {α : Type} (initFn : Nat → Config → List Rat)
    (sgdStep : Rat → List Rat → α × List Nat → List Rat)
    (forward : List Rat → α → List Nat)
    (lossFn : List Rat → α → List Nat → Rat)
    (cfg : Config) (seed : Nat)
    (trainData testData : List (α × List Nat)) (run1 run2 : RunOutput)
    (h1 : run1 = trainRun initFn sgdStep forward lossFn cfg seed trainData testData)
    (h2 : run2 = trainRun initFn sgdStep forward lossFn cfg seed trainData testData) :
    run1.initParams = run2.initParams ∧ run1.metrics = run2.metrics := by
  subst h1
  subst h2
  exact ⟨rfl, rfl⟩

/-- A concrete two-epoch run used to witness `trainRun_deterministic`. -/
def exampleRun : RunOutput :=
  trainRun (fun seed _ => [(seed : Rat)])
    (fun lr ps _ => ps.map (fun p => p - lr))
    (fun _ _ => [0])
    (fun _ _ _ => 1)
    { n := 1, batch_size := 1, learning_rate := 1, epochs := 2,
      weight_decay := 0, momentum := 0 }
    42 [(0, [0])] [(1, [1])]

/-- Witness for C6: two identically seeded instances of the concrete run
coincide. -/
theorem trainRun_deterministic_witness :
    exampleRun.initParams = exampleRun.initParams ∧
    exampleRun.metrics = exampleRun.metrics :=
  trainRun_deterministic (fun seed _ => [(seed : Rat)])
    (fun lr ps _ => ps.map (fun p => p - lr))
    (fun _ _ => [0])
    (fun _ _ _ => 1)
    { n := 1, batch_size := 1, learning_rate := 1, epochs := 2,
      weight_decay := 0, momentum := 0 }
    42 [(0, [0])] [(1, [1])] exampleRun exampleRun rfl rfl

/-- Claim C9: every non-subsampling block still constructs the learned
1x1 stride-2 projection `Conv2d(w / 2, w, 1, 2, 0)`; its weight
`(w, w / 2, 1, 1)` and bias `(w)` are registered in the block's parameter
set (the last two entries below, hence also in the optimizer's parameter
list and the checkpoint), yet the forward pass is independent of the
projection: replacing it by any convolution leaves the output unchanged. -/
theorem projection_registered_unused (w : Nat) (c : Conv2d) (x : Shape) :
    (ResidualBlock.build w false).projection_shortcut = ⟨w / 2, w, 1, 2, 0⟩ ∧
    (ResidualBlock.build w false).paramShapes =
      [[w, w, 3, 3], [w], [w, w, 3, 3], [w], [w, w / 2, 1, 1], [w]] ∧
    ResidualBlock.forward
        { ResidualBlock.build w false with projection_shortcut := c } x =
      ResidualBlock.forward (ResidualBlock.build w false) x :=
  ⟨rfl, rfl, rfl⟩

/-- Claim C10, counterexample: a `(4, 3, 40, 40)` batch — spatial size
other than 32x32 — also flows through and yields exactly one 10-score row
per sample, so "only when the input spatial size is exactly 32x32" is
false. -/
theorem resnet_forward_40x40_matches_batch :
    ResNet.forward (ResNet.build 1) ⟨4, 3, 40, 40⟩ = some (4, 10) ∧ (40 ≠ 32) := by
  decide

/-- Claim C10, amended: the head pools with a fixed 8x8 window and
reshapes to rows of 64 features, so the depth-1 forward pass returns
exactly one 10-score row per sample precisely when each input spatial
dimension lies in `[29, 60]` — the sizes whose pooled map is 1x1, which
include 32x32 but not only it; outside that range the pass fails or the
row count differs from the batch size. -/
theorem head_rows_eq_batch_iff (nb H W : Nat) (hnb : 0 < nb) (hH : 0 < H)
    (hW : 0 < W) :
    (ResNet.forward (ResNet.build 1) ⟨nb, 3, H, W⟩ = some (nb, 10) ↔
      (29 ≤ H ∧ H ≤ 60 ∧ 29 ≤ W ∧ W ≤ 60)) := by
  rw [resnet1_forward_shape nb H W hH hW]
  by_cases hc : 8 ≤ (H - 1) / 2 / 2 + 1 ∧ 8 ≤ (W - 1) / 2 / 2 + 1
  · rw [if_pos hc]
    simp only [Option.some.injEq, Prod.mk.injEq, and_true]
    constructor
    · intro h
      have hm : nb * ((((H - 1) / 2 / 2 + 1 - 8) / 8 + 1) *
          (((W - 1) / 2 / 2 + 1 - 8) / 8 + 1)) = nb * 1 := by
        rw [← Nat.mul_assoc, h, Nat.mul_one]
      have h1 := Nat.eq_of_mul_eq_mul_left hnb hm
      have h2 := Nat.eq_one_of_mul_eq_one_right h1
      have h3 := Nat.eq_one_of_mul_eq_one_left h1
      omega
    · intro h
      have hp : ((H - 1) / 2 / 2 + 1 - 8) / 8 + 1 = 1 := by omega
      have hq : ((W - 1) / 2 / 2 + 1 - 8) / 8 + 1 = 1 := by omega
      rw [hp, hq, Nat.mul_one, Nat.mul_one]
  · rw [if_neg hc]
    constructor
    · intro h
      exact absurd h (by simp)
    · intro h
      omega

/-- Witness for C10's amended theorem at a 32x48 input with batch 2. -/
theorem head_rows_eq_batch_iff_witness :
    (0 < 2) ∧ (0 < 32) ∧ (0 < 48) ∧
    (ResNet.forward (ResNet.build 1) ⟨2, 3, 32, 48⟩ = some (2, 10) ↔
      (29 ≤ 32 ∧ 32 ≤ 60 ∧ 29 ≤ 48 ∧ 48 ≤ 60)) :=
  ⟨by decide, by decide, by decide,
   head_rows_eq_batch_iff 2 32 48 (by decide) (by decide) (by decide)⟩
